import Mathlib

/-!
Formal model of the trading-orchestration core of the algo-trading-bot
repository: the risk gate (`E_risk_management.py`), the position handling and
orchestrator loop (`W_trade_manager.py`, with the loop gate of the
`G_trade_manager.py` variant), and the signal policy
(`C_strategy.py`, `strategies/strategy_01.py`).

Python floats are modelled as rationals (ℚ); external calls (market data,
live quotes, order placement) are modelled by per-iteration oracle inputs
(`Env`), so the loop body is a pure step function over the bot's state.
-/

set_option maxRecDepth 10000

namespace AlgoBot

/-- The trading signal returned by the signal policy
(`'buy'` / `'sell'` / `'hold'` in the Python source). -/
inductive Signal where
  | buy
  | sell
  | hold
deriving DecidableEq, Repr

/-- The side held by the bot: `current_position` in `W_trade_manager.manage_trades`
is `None`, `'CE'` (ATM call) or `'PE'` (ATM put); the `None` case is modelled by
`Option OptionSide`. Both sides are long option positions (the bot only ever
buys the option). -/
inductive OptionSide where
  | CE
  | PE
deriving DecidableEq, Repr

/-- sign(side) in the spec's realized-P&L formula.  Both `CE` and `PE`
positions are held long (the bot always buys the option), so the sign is `1`
for either side. -/
def OptionSide.sign : OptionSide → ℚ
  | .CE => 1
  | .PE => 1

/-- The stop reasons of `E_risk_management.check_risk`
(`result['reason']` strings). -/
inductive StopReason where
  | MAX_DAILY_LOSS
  | MAX_TRADES_PER_DAY
  | STOP_LOSS
  | TAKE_PROFIT
deriving DecidableEq, Repr

/-- The string Python stores in `result['reason']` for each stop reason. -/
def StopReason.pyString : StopReason → String
  | .MAX_DAILY_LOSS => "MAX_DAILY_LOSS"
  | .MAX_TRADES_PER_DAY => "MAX_TRADES_PER_DAY"
  | .STOP_LOSS => "STOP_LOSS"
  | .TAKE_PROFIT => "TAKE_PROFIT"

/-- One trade record as `close_position` appends it to `trade_history`
(the wall-clock `entry_time` field is outside the model). -/
structure TradeRecord where
  entry_price : ℚ
  exit_price : ℚ
  quantity : ℚ
  pnl : ℚ
  signal : OptionSide
  instrument : Option String
deriving DecidableEq, Repr

/-- The session-constant configuration values `check_risk` and
`manage_trades` read through `load_env()`. -/
structure Config where
  STOP_LOSS : ℚ
  TAKE_PROFIT : ℚ
  MAX_DAILY_LOSS : ℚ
  MAX_TRADES_PER_DAY : ℕ
  QUANTITY : ℚ
deriving DecidableEq, Repr

/-- The dict `check_risk` returns:
`{'continue_trading': bool, 'reason': str | None}`. -/
structure RiskResult where
  continue_trading : Bool
  reason : Option StopReason
deriving DecidableEq, Repr

/-- `E_risk_management.check_risk(trade_history, current_pnl,
current_position_pnl=0)`: builds `{'continue_trading': True, 'reason': None}`
and returns early at the first limit hit, in source order. -/
def check_risk (cfg : Config) (trade_history : List TradeRecord)
    (current_pnl : ℚ) (current_position_pnl : ℚ) : RiskResult :=
  if current_pnl ≤ -cfg.MAX_DAILY_LOSS then
    { continue_trading := false, reason := some StopReason.MAX_DAILY_LOSS }
  else if trade_history.length ≥ cfg.MAX_TRADES_PER_DAY then
    { continue_trading := false, reason := some StopReason.MAX_TRADES_PER_DAY }
  else if current_position_pnl ≤ -cfg.STOP_LOSS then
    { continue_trading := false, reason := some StopReason.STOP_LOSS }
  else if current_position_pnl ≥ cfg.TAKE_PROFIT then
    { continue_trading := false, reason := some StopReason.TAKE_PROFIT }
  else
    { continue_trading := true, reason := none }

/-- A Python runtime value, as far as the risk-result dict needs. -/
inductive PyValue where
  | pybool (b : Bool)
  | pystr (s : String)
  | pynone
deriving DecidableEq, Repr

/-- The risk result as the Python dict object `check_risk` actually returns:
a non-empty dict with the two keys the function always sets. -/
def RiskResult.toDict (r : RiskResult) : List (String × PyValue) :=
  [("continue_trading", PyValue.pybool r.continue_trading),
   ("reason", match r.reason with
              | some s => PyValue.pystr s.pyString
              | none => PyValue.pynone)]

/-- Python truthiness of a dict: a dict is truthy iff it is non-empty. -/
def pyDictTruthy (d : List (String × PyValue)) : Bool :=
  !d.isEmpty

/-- The risk factor of the loop gate of `G_trade_manager.manage_trades`
(line 48): `while check_risk(trade_history, current_pnl) and ...` evaluates
the truthiness of the dict `check_risk` returns (the Python call leaves
`current_position_pnl` at its default `0`). -/
def G_loop_risk_gate (cfg : Config) (trade_history : List TradeRecord)
    (current_pnl : ℚ) : Bool :=
  pyDictTruthy (check_risk cfg trade_history current_pnl 0).toDict

/-- An order-execution call issued to the broker boundary
(`execute_sell_order` / `execute_buy_order`). -/
inductive OrderCall where
  | sell (instrument : Option String) (quantity : ℚ)
  | buy (instrument : String) (quantity : ℚ)
deriving DecidableEq, Repr

/-- What `W_trade_manager.close_position` leaves behind: the 4-tuple it
returns (`None, None, 0.0, current_pnl`), the `trade_history` list it
mutates in place, and the order call it issued. -/
structure CloseOutcome where
  current_position : Option OptionSide
  position_instrument : Option String
  position_entry_price : ℚ
  current_pnl : ℚ
  trade_history : List TradeRecord
  orders : List OrderCall
deriving DecidableEq, Repr

/-- `W_trade_manager.close_position`: issues `execute_sell_order`
(`sell_result` is its truthiness); on success fetches the exit quote
(`exit_quote`), falling back to the entry price when the quote is `None`
("Assume no change for record keeping"), accumulates the trade P&L and
appends the record; in every case returns `None, None, 0.0, current_pnl`. -/
def close_position (position_instrument : Option String)
    (position_entry_price : ℚ) (current_position : OptionSide)
    (trade_history : List TradeRecord) (current_pnl : ℚ) (quantity : ℚ)
    (sell_result : Bool) (exit_quote : Option ℚ) : CloseOutcome :=
  if sell_result then
    let exit_price := match exit_quote with
                      | some p => p
                      | none => position_entry_price
    let trade_pnl := (exit_price - position_entry_price) * quantity
    { current_position := none
      position_instrument := none
      position_entry_price := 0
      current_pnl := current_pnl + trade_pnl
      trade_history := trade_history ++
        [{ entry_price := position_entry_price, exit_price := exit_price,
           quantity := quantity, pnl := trade_pnl,
           signal := current_position, instrument := position_instrument }]
      orders := [OrderCall.sell position_instrument quantity] }
  else
    { current_position := none
      position_instrument := none
      position_entry_price := 0
      current_pnl := current_pnl
      trade_history := trade_history
      orders := [OrderCall.sell position_instrument quantity] }

/-- One OHLCV bar (a row of the market-data DataFrame). -/
structure Bar where
  Timestamp : ℕ
  Open : ℚ
  High : ℚ
  Low : ℚ
  Close : ℚ
  Volume : ℚ
  OpenInterest : ℚ
deriving DecidableEq, Repr

/-- The market-data DataFrame: its OHLCV rows plus the three indicator
columns `generate_signal` assigns into it (absent — `none` — until the
strategy adds them). -/
structure DataFrame where
  rows : List Bar
  EMA_9 : Option (List ℚ)
  EMA_15 : Option (List ℚ)
  Avg_Volume_10 : Option (List (Option ℚ))
deriving DecidableEq, Repr

/-- `strategies/strategy_01.calculate_ema`: pandas
`data.ewm(span=period, adjust=False).mean()`, the recursive smoothing
`ema_0 = x_0`, `ema_i = α·x_i + (1−α)·ema_{i−1}` with `α = 2/(period+1)`. -/
def calculate_ema (data : List ℚ) (period : ℕ) : List ℚ :=
  let α : ℚ := 2 / (period + 1)
  match data with
  | [] => []
  | x :: xs => xs.scanl (fun e p => α * p + (1 - α) * e) x

/-- pandas `series.rolling(window=w).mean()`: `none` (NaN) until a full
window is available, then the mean of the trailing `w` values. -/
def rollingMean (w : ℕ) (l : List ℚ) : List (Option ℚ) :=
  (List.range l.length).map fun i =>
    if w ≤ i + 1 then some (((l.drop (i + 1 - w)).take w).sum / (w : ℚ))
    else none

/-- `df[col].iloc[-(k+1)]` on a numeric column: the value `k` places from the
end (the default `0` is never reached at the lengths the strategy checks). -/
def ilocFromEnd (l : List ℚ) (k : ℕ) : ℚ :=
  l.getD (l.length - 1 - k) 0

/-- `iloc` on a column that may hold NaN (`none`) entries. -/
def ilocFromEndOpt (l : List (Option ℚ)) (k : ℕ) : Option ℚ :=
  l.getD (l.length - 1 - k) none

/-- The signal decision of `strategies/strategy_01.generate_signal` once the
indicator columns have been assigned, reading the last three candles exactly
as the source does. The source writes the columns into the frame and reads
them back via `iloc`; since they were just computed from the rows, the
decision is recomputed here from the rows. A comparison against a NaN
average-volume entry is `False`, as in pandas. -/
def generate_signal_from_rows (rows : List Bar) : Signal :=
  let closes := rows.map Bar.Close
  let volumes := rows.map Bar.Volume
  let ema9 := calculate_ema closes 9
  let ema15 := calculate_ema closes 15
  let avg_volume_10 := rollingMean 10 volumes
  let current_close := ilocFromEnd closes 0
  let current_ema_9 := ilocFromEnd ema9 0
  let current_ema_15 := ilocFromEnd ema15 0
  let current_volume := ilocFromEnd volumes 0
  let current_avg_volume := ilocFromEndOpt avg_volume_10 0
  let previous_ema_9 := ilocFromEnd ema9 1
  let previous_ema_15 := ilocFromEnd ema15 1
  let previous_close := ilocFromEnd closes 1
  let bullish_crossover :=
    decide (previous_ema_9 ≤ previous_ema_15) && decide (current_ema_9 > current_ema_15)
  let bearish_crossover :=
    decide (previous_ema_9 ≥ previous_ema_15) && decide (current_ema_9 < current_ema_15)
  let price_above_emas :=
    decide (current_close > current_ema_9) && decide (current_close > current_ema_15)
  let price_below_emas :=
    decide (current_close < current_ema_9) && decide (current_close < current_ema_15)
  let volume_confirmation :=
    match current_avg_volume with
    | some a => decide (current_volume > a)
    | none => false
  let bullish_momentum := decide (current_close > previous_close)
  let bearish_momentum := decide (current_close < previous_close)
  let ema_9_rising := decide (current_ema_9 > ilocFromEnd ema9 2)
  let ema_9_falling := decide (current_ema_9 < ilocFromEnd ema9 2)
  if bullish_crossover && price_above_emas && volume_confirmation &&
      bullish_momentum && ema_9_rising then
    Signal.buy
  else if bearish_crossover && price_below_emas && volume_confirmation &&
      bearish_momentum && ema_9_falling then
    Signal.sell
  else if decide (current_ema_9 > current_ema_15) &&
      decide (previous_ema_9 > previous_ema_15) &&
      price_above_emas && bullish_momentum && volume_confirmation &&
      decide (current_ema_9 - current_ema_15 > previous_ema_9 - previous_ema_15) then
    Signal.buy
  else if decide (current_ema_9 < current_ema_15) &&
      decide (previous_ema_9 < previous_ema_15) &&
      price_below_emas && bearish_momentum && volume_confirmation &&
      decide (current_ema_15 - current_ema_9 > previous_ema_15 - previous_ema_9) then
    Signal.sell
  else
    Signal.hold

/-- `strategies/strategy_01.generate_signal(req_market_data)`: returns
`'hold'` for a missing or empty frame or fewer than 20 candles; otherwise
assigns the `EMA_9`, `EMA_15` and `Avg_Volume_10` columns into the frame it
was passed (pandas column assignment mutates the caller's object — the
second component is the frame as the caller sees it afterwards) and decides
the signal from the last three candles. -/
def generate_signal (req_market_data : Option DataFrame) : Signal × Option DataFrame :=
  match req_market_data with
  | none => (Signal.hold, none)
  | some df =>
    if df.rows.isEmpty then (Signal.hold, some df)
    else if df.rows.length < 20 then (Signal.hold, some df)
    else
      (generate_signal_from_rows df.rows,
       some { df with
              EMA_9 := some (calculate_ema (df.rows.map Bar.Close) 9)
              EMA_15 := some (calculate_ema (df.rows.map Bar.Close) 15)
              Avg_Volume_10 := some (rollingMean 10 (df.rows.map Bar.Volume)) })

/-- `C_strategy.process_market_data(market_data_df)`: `'hold'` for a missing
or empty frame, otherwise `generate_signal`'s verdict. -/
def process_market_data (market_data_df : Option DataFrame) : Signal :=
  match market_data_df with
  | none => Signal.hold
  | some df =>
    if df.rows.isEmpty then Signal.hold
    else (generate_signal (some df)).1

/-- The loop-carried state of `W_trade_manager.manage_trades` (the wall
clock, iteration counter and the printing are outside the model). -/
structure BotState where
  trade_history : List TradeRecord
  current_pnl : ℚ
  last_signal : Option Signal
  current_position : Option OptionSide
  position_entry_price : ℚ
  position_instrument : Option String
deriving DecidableEq, Repr

/-- The state `manage_trades` sets up before its loop. -/
def initState : BotState :=
  { trade_history := []
    current_pnl := 0
    last_signal := none
    current_position := none
    position_entry_price := 0
    position_instrument := none }

/-- The outcomes of the external calls one loop iteration can make: the live
quote for a held instrument, the fetched bar series, the sell result and
exit quote of a risk-driven or signal-driven close, the underlying quote,
the ATM option lookup, and the buy result and entry quote of an open. -/
structure Env where
  live_price : Option ℚ
  market_data : Option DataFrame
  risk_close_sell : Bool
  risk_close_quote : Option ℚ
  signal_close_sell : Bool
  signal_close_quote : Option ℚ
  underlying_price : Option ℚ
  atm_option : Option String
  buy_ok : Bool
  entry_quote : Option ℚ
deriving Repr

/-- The unrealized P&L `manage_trades` computes at the top of an iteration:
`(current_price − entry) × quantity` only when a position is held, its live
quote arrived and the recorded entry price is positive; otherwise `0`. -/
def currentPositionPnl (cfg : Config) (st : BotState) (live : Option ℚ) : ℚ :=
  match st.current_position, live with
  | some _, some current_price =>
    if st.position_entry_price > 0 then
      (current_price - st.position_entry_price) * cfg.QUANTITY
    else 0
  | _, _ => 0

/-- Folds a `close_position` call back into the loop state, as the caller's
tuple unpacking plus the in-place `trade_history` mutation do. -/
def applyClose (st : BotState) (side : OptionSide) (qty : ℚ)
    (sell_result : Bool) (exit_quote : Option ℚ) : BotState × List OrderCall :=
  let r := close_position st.position_instrument st.position_entry_price side
    st.trade_history st.current_pnl qty sell_result exit_quote
  ({ st with
     current_position := r.current_position
     position_instrument := r.position_instrument
     position_entry_price := r.position_entry_price
     current_pnl := r.current_pnl
     trade_history := r.trade_history }, r.orders)

/-- What one loop iteration produces: the updated state, whether the
iteration executed `break`, and every order-execution call it issued. -/
structure StepOut where
  state : BotState
  brk : Bool
  orders : List OrderCall
deriving Repr

/-- One iteration of the `while` loop of `W_trade_manager.manage_trades`:
compute unrealized P&L, consult `check_risk`; on a stop, close any open
position and `break` for the account-level reasons
(`MAX_TRADES_PER_DAY` / `MAX_DAILY_LOSS`); fetch market data (missing or
empty ⇒ sleep and `continue`); evaluate the signal; on a new non-hold
signal close any open position, and — unless the underlying quote is
unavailable, which skips the rest of the iteration without updating
`last_signal` — look up the ATM option and place the buy, recording the
entry quote (or `0` when it cannot be fetched); finally set
`last_signal` to the evaluated signal. -/
def step (cfg : Config) (st : BotState) (env : Env) : StepOut :=
  let ppnl := currentPositionPnl cfg st env.live_price
  let risk := check_risk cfg st.trade_history st.current_pnl ppnl
  let closed :=
    if risk.continue_trading then (st, ([] : List OrderCall))
    else
      match st.current_position with
      | some side => applyClose st side cfg.QUANTITY env.risk_close_sell env.risk_close_quote
      | none => (st, [])
  let st1 := closed.1
  let orders1 := closed.2
  if risk.continue_trading = false ∧
      (risk.reason = some StopReason.MAX_TRADES_PER_DAY ∨
       risk.reason = some StopReason.MAX_DAILY_LOSS) then
    { state := st1, brk := true, orders := orders1 }
  else
    match env.market_data with
    | none => { state := st1, brk := false, orders := orders1 }
    | some df =>
      if df.rows.isEmpty then { state := st1, brk := false, orders := orders1 }
      else
        let signal := process_market_data (some df)
        if signal ≠ Signal.hold ∧ some signal ≠ st1.last_signal then
          let closed2 :=
            match st1.current_position with
            | some side =>
              applyClose st1 side cfg.QUANTITY env.signal_close_sell env.signal_close_quote
            | none => (st1, ([] : List OrderCall))
          let st2 := closed2.1
          let orders2 := closed2.2
          match env.underlying_price with
          | none =>
            { state := st2, brk := false, orders := orders1 ++ orders2 }
          | some _ =>
            let option_type_to_buy :=
              if signal = Signal.buy then OptionSide.CE else OptionSide.PE
            match env.atm_option with
            | some instr =>
              let orders3 := [OrderCall.buy instr cfg.QUANTITY]
              if env.buy_ok then
                let entry := match env.entry_quote with
                             | some p => p
                             | none => 0
                { state := { st2 with
                             current_position := some option_type_to_buy
                             position_instrument := some instr
                             position_entry_price := entry
                             last_signal := some signal }
                  brk := false
                  orders := orders1 ++ orders2 ++ orders3 }
              else
                { state := { st2 with last_signal := some signal }
                  brk := false
                  orders := orders1 ++ orders2 ++ orders3 }
            | none =>
              { state := { st2 with last_signal := some signal }
                brk := false
                orders := orders1 ++ orders2 }
        else
          { state := { st1 with last_signal := some signal }
            brk := false
            orders := orders1 }

/-- The bounded `while` loop: the runtime cap is modelled by the length of
the oracle list (one entry per iteration the cap allows); `break` ends the
loop early. -/
def runLoop (cfg : Config) : BotState → List Env → BotState
  | st, [] => st
  | st, env :: rest =>
    let out := step cfg st env
    if out.brk then out.state else runLoop cfg out.state rest

/-- The code after the loop of `manage_trades`: if a position is still open,
close it once ("Session ending. Closing final position.") before the
summary is produced. Returns the final state and the order calls this
post-loop close issued. -/
def finishSession (cfg : Config) (st : BotState) (final_sell : Bool)
    (final_quote : Option ℚ) : BotState × List OrderCall :=
  match st.current_position with
  | some side => applyClose st side cfg.QUANTITY final_sell final_quote
  | none => (st, [])

/-- A whole session of `W_trade_manager.manage_trades`: run the loop from
the initial state, then force-close any remaining position. -/
def manage_trades (cfg : Config) (envs : List Env) (final_sell : Bool)
    (final_quote : Option ℚ) : BotState × List OrderCall :=
  finishSession cfg (runLoop cfg initState envs) final_sell final_quote

/-- The session summary `manage_trades` returns (profitable: `pnl > 0`,
losing: `pnl ≤ 0`, win rate `0` when no trades). -/
structure Summary where
  total_trades : ℕ
  profitable_trades : ℕ
  losing_trades : ℕ
  net_pnl : ℚ
  win_rate : ℚ
deriving DecidableEq, Repr

/-- The summary dict built at the end of `manage_trades`. -/
def sessionSummary (st : BotState) : Summary :=
  let profitable := (st.trade_history.filter fun t => t.pnl > 0).length
  let losing := (st.trade_history.filter fun t => t.pnl ≤ 0).length
  { total_trades := st.trade_history.length
    profitable_trades := profitable
    losing_trades := losing
    net_pnl := st.current_pnl
    win_rate := if st.trade_history.length = 0 then 0
                else (profitable : ℚ) / (st.trade_history.length : ℚ) * 100 }

/-! ### Concrete fixtures used by witnesses and counterexamples -/

/-- A generous limit set: stop-loss 100, take-profit 100, daily-loss cap
1000, at most 10 trades, quantity 10. -/
def cfgW : Config :=
  { STOP_LOSS := 100, TAKE_PROFIT := 100, MAX_DAILY_LOSS := 1000,
    MAX_TRADES_PER_DAY := 10, QUANTITY := 10 }

/-- The same limits with `MAX_TRADES_PER_DAY = 1`. -/
def cfgG : Config :=
  { STOP_LOSS := 100, TAKE_PROFIT := 100, MAX_DAILY_LOSS := 1000,
    MAX_TRADES_PER_DAY := 1, QUANTITY := 10 }

/-- An instrument key as the ATM lookup returns one. -/
def atmKey : String := "NSE_FO|BANKNIFTY-ATM-CE"

/-- A one-record ledger: enough to hit a `MAX_TRADES_PER_DAY` of 1. -/
def gLedger : List TradeRecord :=
  [{ entry_price := 100, exit_price := 50, quantity := 10, pnl := -500,
     signal := OptionSide.CE, instrument := some atmKey }]

/-- 20 candles with doubling closes and rising volume: the trend-continuation
rule of `generate_signal` fires and yields `buy`. -/
def buyRows : List Bar :=
  (List.range 20).map fun i =>
    { Timestamp := i, Open := 2 ^ i, High := 2 ^ i, Low := 2 ^ i,
      Close := 2 ^ i, Volume := (i : ℚ) + 1, OpenInterest := 0 }

/-- The buy-signal candles as a freshly fetched frame (no indicator columns). -/
def buyDf : DataFrame :=
  { rows := buyRows, EMA_9 := none, EMA_15 := none, Avg_Volume_10 := none }

/-- 20 constant candles (close 100, volume 10): no filter fires, `hold`. -/
def flatRows : List Bar :=
  (List.range 20).map fun i =>
    { Timestamp := i, Open := 100, High := 100, Low := 100,
      Close := 100, Volume := 10, OpenInterest := 0 }

/-- The constant candles as a freshly fetched frame. -/
def flatDf : DataFrame :=
  { rows := flatRows, EMA_9 := none, EMA_15 := none, Avg_Volume_10 := none }

/-- A single candle. -/
def oneBar : Bar :=
  { Timestamp := 0, Open := 100, High := 100, Low := 100, Close := 100,
    Volume := 10, OpenInterest := 0 }

/-- A one-row frame: non-empty, but far below the 20-candle minimum. -/
def oneRowDf : DataFrame :=
  { rows := [oneBar], EMA_9 := none, EMA_15 := none, Avg_Volume_10 := none }

/-- An iteration oracle under which the bot opens a CE position but the
post-buy entry quote is unavailable. -/
def envOpenNoQuote : Env :=
  { live_price := none, market_data := some buyDf,
    risk_close_sell := true, risk_close_quote := none,
    signal_close_sell := true, signal_close_quote := none,
    underlying_price := some 50000, atm_option := some atmKey,
    buy_ok := true, entry_quote := none }

/-- The same oracle with the entry quote arriving at 100. -/
def envOpenAt100 : Env :=
  { envOpenNoQuote with entry_quote := some 100 }

/-- An iteration oracle for a held position quoting at 50 (unrealized −500,
breaching the stop-loss) whose fetched bar series has a single row (so the
evaluated signal is `hold`). -/
def envStopLossHold : Env :=
  { live_price := some 50, market_data := some oneRowDf,
    risk_close_sell := true, risk_close_quote := some 50,
    signal_close_sell := true, signal_close_quote := none,
    underlying_price := none, atm_option := none,
    buy_ok := false, entry_quote := none }

/-! ### The claims -/

/-- C1: `check_risk` evaluates its four stop conditions in the fixed order
MaxDailyLoss, MaxTradesPerDay, StopLoss, TakeProfit with first match
winning, returning continue with no reason when none fires; in particular,
when the daily-loss and stop-loss conditions hold simultaneously the
reported reason is `MAX_DAILY_LOSS`, never `STOP_LOSS`. -/
theorem check_risk_evaluation_order (cfg : Config) (ledger : List TradeRecord)
    (realizedPnl openPnl : ℚ) :
    (realizedPnl ≤ -cfg.MAX_DAILY_LOSS →
      check_risk cfg ledger realizedPnl openPnl =
        { continue_trading := false, reason := some StopReason.MAX_DAILY_LOSS }) ∧
    (¬ realizedPnl ≤ -cfg.MAX_DAILY_LOSS →
      ledger.length ≥ cfg.MAX_TRADES_PER_DAY →
      check_risk cfg ledger realizedPnl openPnl =
        { continue_trading := false, reason := some StopReason.MAX_TRADES_PER_DAY }) ∧
    (¬ realizedPnl ≤ -cfg.MAX_DAILY_LOSS →
      ¬ ledger.length ≥ cfg.MAX_TRADES_PER_DAY →
      openPnl ≤ -cfg.STOP_LOSS →
      check_risk cfg ledger realizedPnl openPnl =
        { continue_trading := false, reason := some StopReason.STOP_LOSS }) ∧
    (¬ realizedPnl ≤ -cfg.MAX_DAILY_LOSS →
      ¬ ledger.length ≥ cfg.MAX_TRADES_PER_DAY →
      ¬ openPnl ≤ -cfg.STOP_LOSS →
      openPnl ≥ cfg.TAKE_PROFIT →
      check_risk cfg ledger realizedPnl openPnl =
        { continue_trading := false, reason := some StopReason.TAKE_PROFIT }) ∧
    (¬ realizedPnl ≤ -cfg.MAX_DAILY_LOSS →
      ¬ ledger.length ≥ cfg.MAX_TRADES_PER_DAY →
      ¬ openPnl ≤ -cfg.STOP_LOSS →
      ¬ openPnl ≥ cfg.TAKE_PROFIT →
      check_risk cfg ledger realizedPnl openPnl =
        { continue_trading := true, reason := none }) ∧
    (realizedPnl ≤ -cfg.MAX_DAILY_LOSS → openPnl ≤ -cfg.STOP_LOSS →
      (check_risk cfg ledger realizedPnl openPnl).reason =
        some StopReason.MAX_DAILY_LOSS) := by
  refine ⟨?_, ?_, ?_, ?_, ?_, ?_⟩ <;> intros <;> simp [check_risk, *]

/-- C1 witness: realized −1200 against a daily-loss cap of 1000 with a
simultaneous stop-loss breach of the open position reports `MAX_DAILY_LOSS`. -/
theorem check_risk_evaluation_order_spot :
    check_risk cfgW [] (-1200) (-300) =
      { continue_trading := false, reason := some StopReason.MAX_DAILY_LOSS } :=
  (check_risk_evaluation_order cfgW [] (-1200) (-300)).1 (by norm_num [cfgW])

/-- C2 (the bug in the `G_trade_manager` variant): with a one-trade ledger
against a one-trade limit, `check_risk` reports a `MAX_TRADES_PER_DAY` stop,
yet the loop gate of `G_trade_manager.manage_trades` — which evaluates the
truthiness of the returned dict — is still true, so that loop does not
terminate on the account-level stop. -/
theorem g_loop_gate_ignores_account_stop :
    (check_risk cfgG gLedger 0 0).continue_trading = false ∧
    (check_risk cfgG gLedger 0 0).reason = some StopReason.MAX_TRADES_PER_DAY ∧
    G_loop_risk_gate cfgG gLedger 0 = true := by
  refine ⟨by decide, by decide, rfl⟩

/-- C3 (the bug in `close_position` on execution failure): when the sell
order fails for a `Holding(CE, entry 100, qty 10)` position, no trade record
is appended and the realized P&L is unchanged, but the function still
returns `None, None, 0.0`, so the caller's state becomes Flat — it does not
remain Holding, and no later iteration can retry the close. -/
theorem close_position_failure_resets_to_flat :
    close_position (some atmKey) 100 OptionSide.CE [] 0 10 false none =
      { current_position := none, position_instrument := none,
        position_entry_price := 0, current_pnl := 0, trade_history := [],
        orders := [OrderCall.sell (some atmKey) 10] } := by
  decide

/-- C7: a missing bar series, or one with fewer than 20 candles (the empty
series included), makes both `process_market_data` and `generate_signal`
return `hold` — a defined result of the total functions modelled here, not
an error path. -/
theorem insufficient_bars_yield_hold (odf : Option DataFrame)
    (h : ∀ df, odf = some df → df.rows.length < 20) :
    process_market_data odf = Signal.hold ∧
    (generate_signal odf).1 = Signal.hold := by
  cases odf with
  | none => exact ⟨rfl, rfl⟩
  | some df =>
    have hlt : df.rows.length < 20 := h df rfl
    by_cases he : df.rows.isEmpty <;>
      simp [process_market_data, generate_signal, he, hlt]

/-- C7 witness: a single-candle series yields `hold`. -/
theorem insufficient_bars_yield_hold_spot :
    process_market_data (some oneRowDf) = Signal.hold ∧
    (generate_signal (some oneRowDf)).1 = Signal.hold :=
  insufficient_bars_yield_hold (some oneRowDf)
    (by intro df hdf; cases hdf; decide)

/-- C8: a successful close from `Holding(entry e, qty q)` at exit quote `x`
appends exactly one record carrying the entry price, exit price, quantity,
instrument and originating side (`'CE'`/`'PE'`, the stored encoding of the
signal acted on), with realized P&L `(x − e) × q × sign(side)` — the sign
is 1 since both sides are held long — and the realized-P&L accumulator
grows by exactly that amount while the state returns to Flat. -/
theorem close_success_appends_record (instr : Option String)
    (e x q pnl : ℚ) (side : OptionSide) (hist : List TradeRecord) :
    close_position instr e side hist pnl q true (some x) =
      { current_position := none, position_instrument := none,
        position_entry_price := 0,
        current_pnl := pnl + (x - e) * q * side.sign,
        trade_history := hist ++
          [{ entry_price := e, exit_price := x, quantity := q,
             pnl := (x - e) * q * side.sign, signal := side,
             instrument := instr }],
        orders := [OrderCall.sell instr q] } := by
  cases side <;> simp [close_position, OptionSide.sign]

/-- C10: a close whose sell succeeds but whose exit quote is unavailable
still completes: the exit price is recorded as the entry price, the appended
record has zero P&L, the accumulator is unchanged and the state becomes
Flat. -/
theorem close_success_missing_quote (instr : Option String)
    (e q pnl : ℚ) (side : OptionSide) (hist : List TradeRecord) :
    close_position instr e side hist pnl q true none =
      { current_position := none, position_instrument := none,
        position_entry_price := 0, current_pnl := pnl,
        trade_history := hist ++
          [{ entry_price := e, exit_price := e, quantity := q, pnl := 0,
             signal := side, instrument := instr }],
        orders := [OrderCall.sell instr q] } := by
  simp [close_position]

/-! ### Invariant machinery for the loop state -/

/-- The Flat side of the spec's invariant: a state with no open position has
entry price `0` and no held instrument. -/
def FlatUnset (st : BotState) : Prop :=
  st.current_position = none →
    st.position_entry_price = 0 ∧ st.position_instrument = none

/-- After any `close_position` call folded back into the state, the tracked
position is gone (`None, None, 0.0`), whatever the sell result or quote. -/
lemma applyClose_pos (st : BotState) (side : OptionSide) (q : ℚ)
    (sr : Bool) (eq' : Option ℚ) :
    (applyClose st side q sr eq').1.current_position = none := by
  cases sr <;> simp [applyClose, close_position]

/-- A close resets the recorded entry price to `0.0`. -/
lemma applyClose_entry (st : BotState) (side : OptionSide) (q : ℚ)
    (sr : Bool) (eq' : Option ℚ) :
    (applyClose st side q sr eq').1.position_entry_price = 0 := by
  cases sr <;> simp [applyClose, close_position]

/-- A close resets the held instrument to `None`. -/
lemma applyClose_instr (st : BotState) (side : OptionSide) (q : ℚ)
    (sr : Bool) (eq' : Option ℚ) :
    (applyClose st side q sr eq').1.position_instrument = none := by
  cases sr <;> simp [applyClose, close_position]

/-- A close issues exactly the one sell call. -/
lemma applyClose_orders (st : BotState) (side : OptionSide) (q : ℚ)
    (sr : Bool) (eq' : Option ℚ) :
    (applyClose st side q sr eq').2 = [OrderCall.sell st.position_instrument q] := by
  cases sr <;> simp [applyClose, close_position]

/-- One loop iteration preserves the Flat-unset invariant. -/
lemma step_flatUnset (cfg : Config) (st : BotState) (env : Env)
    (h : FlatUnset st) : FlatUnset (step cfg st env).state := by
  unfold FlatUnset at h ⊢
  simp only [step]
  repeat' split
  all_goals simp_all [applyClose_pos, applyClose_entry, applyClose_instr]

/-- The loop preserves the Flat-unset invariant. -/
lemma runLoop_flatUnset (cfg : Config) (envs : List Env) (st : BotState)
    (h : FlatUnset st) : FlatUnset (runLoop cfg st envs) := by
  induction envs generalizing st with
  | nil => simpa [runLoop] using h
  | cons e rest ih =>
    simp only [runLoop]
    split
    · exact step_flatUnset cfg st e h
    · exact ih _ (step_flatUnset cfg st e h)

/-- C4 counterexample: starting Flat, one iteration whose buy succeeds but
whose post-buy entry quote is unavailable reaches a Holding(CE) state whose
recorded entry price is `0` — the code comment says "Set to 0 if fetch
fails" — refuting "entry price is unset iff Flat" and "after every open()
reaching Holding the entry price is non-zero/set". -/
theorem holding_with_zero_entry_reachable :
    (runLoop cfgW initState [envOpenNoQuote]).current_position =
      some OptionSide.CE ∧
    (runLoop cfgW initState [envOpenNoQuote]).position_entry_price = 0 := by
  exact ⟨by with_unfolding_all rfl, by with_unfolding_all rfl⟩

/-- C4 (amended): in every reachable state of the loop, at most one position
is tracked (the state carries a single position), and a Flat state has entry
price zero and no held instrument; the converse direction fails — a Holding
state may record entry price `0` when the post-open quote fetch fails. -/
theorem flat_state_has_unset_entry (cfg : Config) (envs : List Env)
    (h : (runLoop cfg initState envs).current_position = none) :
    (runLoop cfg initState envs).position_entry_price = 0 ∧
    (runLoop cfg initState envs).position_instrument = none :=
  runLoop_flatUnset cfg envs initState (fun _ => ⟨rfl, rfl⟩) h

/-- C4 witness: after opening at 100 and the stop-loss close, the loop state
is Flat with entry price reset and no instrument. -/
theorem flat_state_has_unset_entry_spot :
    (runLoop cfgW initState [envOpenAt100, envStopLossHold]).position_entry_price = 0 ∧
    (runLoop cfgW initState [envOpenAt100, envStopLossHold]).position_instrument = none :=
  flat_state_has_unset_entry cfgW [envOpenAt100, envStopLossHold]
    (by with_unfolding_all rfl)

/-- C5 counterexample: an iteration reached after opening at 100, in which
the held position quotes at 50 (stop-loss breach): the evaluated signal of
the iteration is `hold`, yet the iteration issues a sell order — the
risk-driven close — so "signal is Hold ⇒ no order-execution call is issued
in that iteration" is false on the code. -/
theorem risk_close_in_hold_iteration :
    process_market_data envStopLossHold.market_data = Signal.hold ∧
    (step cfgW (runLoop cfgW initState [envOpenAt100]) envStopLossHold).orders =
      [OrderCall.sell (some atmKey) 10] := by
  exact ⟨by with_unfolding_all rfl, by with_unfolding_all rfl⟩

/-- C5 (amended): in an iteration whose risk gate allows trading to
continue, if the evaluated signal is Hold or equals the previously recorded
signal, no order-execution call is issued and the position, entry price and
ledger are untouched; repeats of the last recorded non-Hold signal are
covered by the second disjunct. (A risk-driven close may still issue a sell
in a Hold iteration, which is what the unamended claim missed.) -/
theorem no_signal_action_on_hold_or_repeat (cfg : Config) (st : BotState)
    (env : Env) (df : DataFrame) (hmd : env.market_data = some df)
    (hrisk : (check_risk cfg st.trade_history st.current_pnl
      (currentPositionPnl cfg st env.live_price)).continue_trading = true)
    (hsig : process_market_data (some df) = Signal.hold ∨
      some (process_market_data (some df)) = st.last_signal) :
    (step cfg st env).orders = [] ∧
    (step cfg st env).state.current_position = st.current_position ∧
    (step cfg st env).state.position_entry_price = st.position_entry_price ∧
    (step cfg st env).state.trade_history = st.trade_history := by
  rcases hsig with hsig | hsig <;>
    by_cases he : df.rows.isEmpty <;>
      simp [step, hmd, hrisk, he, hsig]

/-- C5 witness: from the initial Flat state, an iteration fetching a
one-candle series (signal `hold`) issues no order and changes nothing. -/
theorem no_signal_action_on_hold_or_repeat_spot :
    (step cfgW initState envStopLossHold).orders = [] ∧
    (step cfgW initState envStopLossHold).state.current_position =
      initState.current_position ∧
    (step cfgW initState envStopLossHold).state.position_entry_price =
      initState.position_entry_price ∧
    (step cfgW initState envStopLossHold).state.trade_history =
      initState.trade_history :=
  no_signal_action_on_hold_or_repeat cfgW initState envStopLossHold oneRowDf
    rfl (by decide) (Or.inl (by decide))

/-- C6: every session ends Flat; when the loop exits while Holding, the
post-loop code issues exactly one further close (one sell call for the held
instrument) before the summary; when the loop exits Flat, it issues none. -/
theorem forced_flatten_at_session_end (cfg : Config) (envs : List Env)
    (fs : Bool) (fq : Option ℚ) :
    (manage_trades cfg envs fs fq).1.current_position = none ∧
    (∀ side, (runLoop cfg initState envs).current_position = some side →
      (manage_trades cfg envs fs fq).2 =
        [OrderCall.sell (runLoop cfg initState envs).position_instrument
          cfg.QUANTITY]) ∧
    ((runLoop cfg initState envs).current_position = none →
      (manage_trades cfg envs fs fq).2 = []) := by
  unfold manage_trades finishSession
  cases h : (runLoop cfg initState envs).current_position with
  | none => simp [h]
  | some side => cases fs <;> simp [h, applyClose, close_position]

/-- C6 witness: a session whose single iteration opens at 100 and whose
runtime then expires force-closes that position exactly once and ends Flat. -/
theorem forced_flatten_at_session_end_spot :
    (manage_trades cfgW [envOpenAt100] true (some 120)).1.current_position = none ∧
    (manage_trades cfgW [envOpenAt100] true (some 120)).2 =
      [OrderCall.sell (some atmKey) 10] := by
  refine ⟨(forced_flatten_at_session_end cfgW [envOpenAt100] true (some 120)).1, ?_⟩
  have h2 := (forced_flatten_at_session_end cfgW [envOpenAt100] true (some 120)).2.1
    OptionSide.CE (by with_unfolding_all rfl)
  have hpi : (runLoop cfgW initState [envOpenAt100]).position_instrument =
      some atmKey := by with_unfolding_all rfl
  rw [hpi] at h2
  exact h2

/-- The rows of an optional frame (empty for a missing frame). -/
def rowsOf : Option DataFrame → List Bar
  | none => []
  | some df => df.rows

/-- C9 counterexample: on a 20-candle frame fetched without indicator
columns, `generate_signal` does not leave its input unchanged — pandas
column assignment adds `EMA_9`, `EMA_15` and `Avg_Volume_10` to the caller's
frame (the `__main__` block of `C_strategy.py` even reads them back). -/
theorem generate_signal_mutates_frame :
    (generate_signal (some flatDf)).2 ≠ some flatDf := by
  with_unfolding_all decide

/-- C9 (amended): the signal is a deterministic function of the bar rows
alone — two frames with the same rows get the same signal, whatever
indicator columns they already carry — and evaluation never adds, removes or
modifies any row; but the frame itself is mutated: the three indicator
columns are (re)assigned on every evaluation of a sufficient series. -/
theorem signal_depends_only_on_rows (df₁ df₂ : DataFrame)
    (odf : Option DataFrame) (h : df₁.rows = df₂.rows) :
    (generate_signal (some df₁)).1 = (generate_signal (some df₂)).1 ∧
    rowsOf ((generate_signal odf).2) = rowsOf odf := by
  constructor
  · by_cases he : df₂.rows.isEmpty <;> by_cases hl : df₂.rows.length < 20 <;>
      simp [generate_signal, h, he, hl]
  · cases odf with
    | none => rfl
    | some df =>
      by_cases he : df.rows.isEmpty <;> by_cases hl : df.rows.length < 20 <;>
        simp [generate_signal, rowsOf, he, hl]

/-- The constant-candle frame with an indicator column already present. -/
def flatDfMarked : DataFrame :=
  { flatDf with EMA_9 := some [0] }

/-- C9 witness: a frame with a stale `EMA_9` column gets the same signal as
the bare frame with the same rows, and the rows survive evaluation. -/
theorem signal_depends_only_on_rows_spot :
    (generate_signal (some flatDf)).1 = (generate_signal (some flatDfMarked)).1 ∧
    rowsOf ((generate_signal (some flatDf)).2) = rowsOf (some flatDf) :=
  signal_depends_only_on_rows flatDf flatDfMarked (some flatDf) rfl

end AlgoBot
